import Mathlib

/-!
Shallow embedding of the bridge event relayer in `src/script.py`.

The script watches a source chain for `BridgeTransferInitiated` events,
deduplicates them by the hex of `transactionId`, and simulates a
`releaseTokens` call on the destination chain (building and signing a
transaction, never broadcasting it).  External effects (RPC head reads,
event queries, transaction build/sign) are modelled by explicit
environment parameters; a dispatch that raises inside
`_simulate_release_tokens` is modelled by the per-call boolean being
`false`.
-/

namespace BridgeRelay

/-- Result of `BridgeEventHandler.process_event` for one event, at the
granularity the spec names: early return on a known id, normal return on
success, caught exception on failure (lines 132-146 of script.py). -/
inductive Outcome
  | Relayed
  | AlreadyRelayed
  | Failed
deriving DecidableEq, Repr

/-- A `BridgeTransferInitiated` event (the fields of `SOURCE_BRIDGE_ABI`,
lines 25-40 of script.py).  `bytes32`/`address`/`uint256` values are
modelled as `Nat`; the dedup key `transactionId.hex()` is injective in the
bytes, so the `Nat` itself serves as the key. -/
structure BridgeEvent where
  transactionId : Nat
  sender : Nat
  destinationChainId : Nat
  token : Nat
  amount : Nat
deriving DecidableEq, Repr

/-- The payload of the destination `releaseTokens` call, as assembled at
lines 180-185 of script.py. -/
structure ReleaseAction where
  sourceTransactionId : Nat
  recipient : Nat
  token : Nat
  amount : Nat
deriving DecidableEq, Repr

/-- The arguments passed to `dest_bridge_contract.functions.releaseTokens`
(lines 180-185): the event sender becomes the recipient, token and amount
are forwarded verbatim. -/
def buildReleaseAction (e : BridgeEvent) : ReleaseAction :=
  { sourceTransactionId := e.transactionId
  , recipient := e.sender
  , token := e.token
  , amount := e.amount }

/-- The `BridgeConfig` dataclass (lines 60-69 of script.py), field for
field.  There is no simulation/live switch and no scan-range cap among the
fields. -/
structure BridgeConfig where
  source_chain_rpc : String
  destination_chain_rpc : String
  source_bridge_address : String
  destination_bridge_address : String
  listener_private_key : String
  start_block : Nat := 0
  poll_interval_seconds : Nat := 15
deriving DecidableEq, Repr

/-- A destination transaction after `sign_transaction` (lines 188-190):
the release payload together with the key that signed it. -/
structure SignedTx where
  action : ReleaseAction
  signerKey : String
deriving DecidableEq, Repr

/-- Destination-chain activity performed by one call of
`_simulate_release_tokens`: the transactions built and signed, and the
raw transactions actually broadcast.  The broadcast (lines 195-199) is
commented out in the source, so `broadcasts` is always empty on the
success path. -/
structure ReleaseEffects where
  signedTxs : List SignedTx
  broadcasts : List SignedTx
deriving DecidableEq, Repr

/-- Model of `BridgeEventHandler._simulate_release_tokens` (lines 148-207).
`releaseOk` abstracts the external nonce/fee lookups, transaction build
and signing succeeding; when any of them raises, the method re-raises
(line 207) having produced no destination transaction. -/
def simulate_release_tokens (cfg : BridgeConfig) (releaseOk : Bool)
    (e : BridgeEvent) : Except Unit ReleaseEffects :=
  if releaseOk then
    .ok { signedTxs := [{ action := buildReleaseAction e
                        , signerKey := cfg.listener_private_key }]
        , broadcasts := [] }
  else
    .error ()

/-- The state and observable output of one `process_event` call. -/
structure DispatchResult where
  processed_transactions : List Nat
  outcome : Outcome
  effects : ReleaseEffects
deriving DecidableEq, Repr

/-- Model of `BridgeEventHandler.process_event` (lines 124-146): look the id up in
`processed_transactions` and return early if present; otherwise run
`_simulate_release_tokens` and add the id only after it returns; any
exception is caught and logged (lines 145-146), leaving the set
untouched. -/
def process_event (cfg : BridgeConfig) (processed : List Nat)
    (releaseOk : Bool) (e : BridgeEvent) : DispatchResult :=
  if e.transactionId ∈ processed then
    { processed_transactions := processed
    , outcome := .AlreadyRelayed
    , effects := { signedTxs := [], broadcasts := [] } }
  else
    match simulate_release_tokens cfg releaseOk e with
    | .ok eff =>
        { processed_transactions := e.transactionId :: processed
        , outcome := .Relayed
        , effects := eff }
    | .error _ =>
        { processed_transactions := processed
        , outcome := .Failed
        , effects := { signedTxs := [], broadcasts := [] } }

/-- Accumulated result of dispatching a list of scanned events in order. -/
structure DispatchTrace where
  processed_transactions : List Nat
  outcomes : List Outcome
  signedTxs : List SignedTx
  broadcasts : List SignedTx
deriving DecidableEq, Repr

/-- The `for event in events: self.event_handler.process_event(event)`
loop (lines 256-257): strictly sequential, each call seeing the state
left by the previous one.  Each event is paired with the boolean saying
whether its external build/sign succeeds. -/
def runDispatches (cfg : BridgeConfig) (processed : List Nat) :
    List (BridgeEvent × Bool) → DispatchTrace
  | [] =>
      { processed_transactions := processed
      , outcomes := [], signedTxs := [], broadcasts := [] }
  | (e, ok) :: rest =>
      let r := process_event cfg processed ok e
      let t := runDispatches cfg r.processed_transactions rest
      { processed_transactions := t.processed_transactions
      , outcomes := r.outcome :: t.outcomes
      , signedTxs := r.effects.signedTxs ++ t.signedTxs
      , broadcasts := r.effects.broadcasts ++ t.broadcasts }

/-- The mutable state of `BridgeEventListener` across loop iterations. -/
structure LoopState where
  last_processed_block : Nat
  processed_transactions : List Nat
deriving DecidableEq, Repr

/-- External world for one iteration of `BridgeEventListener.run`:
the `eth.block_number` read (which may raise) and the event query over a
block range (filter creation plus `get_all_entries`, which may raise),
returning each event with the success of its later build/sign step. -/
structure CycleEnv where
  head : Except Unit Nat
  scan : Nat → Nat → Except Unit (List (BridgeEvent × Bool))

/-- Observable activity of one loop iteration: the block ranges queried,
and the dispatch outcomes and destination-chain activity. -/
structure CycleLog where
  queries : List (Nat × Nat)
  outcomes : List Outcome
  signedTxs : List SignedTx
  broadcasts : List SignedTx
deriving DecidableEq, Repr

/-- The log of an iteration in which no scan happened. -/
def emptyCycleLog : CycleLog :=
  { queries := [], outcomes := [], signedTxs := [], broadcasts := [] }

/-- One iteration of the `while True` body of `BridgeEventListener.run`
(lines 238-268): read the head (an exception is caught at lines 263-266
and leaves the state unchanged); if the head exceeds
`last_processed_block`, query `[last+1, head]` (a raising query is
likewise caught, state unchanged), dispatch every event, and then set
`last_processed_block = to_block` unconditionally (line 261) — reached
whenever the scan itself succeeded, because `process_event` catches all
of its own exceptions. -/
def runCycle (cfg : BridgeConfig) (st : LoopState) (env : CycleEnv) :
    LoopState × CycleLog :=
  match env.head with
  | .error _ => (st, emptyCycleLog)
  | .ok latest_block =>
      if latest_block > st.last_processed_block then
        let from_block := st.last_processed_block + 1
        let to_block := latest_block
        match env.scan from_block to_block with
        | .error _ =>
            (st, { queries := [(from_block, to_block)]
                 , outcomes := [], signedTxs := [], broadcasts := [] })
        | .ok calls =>
            let t := runDispatches cfg st.processed_transactions calls
            ({ last_processed_block := to_block
             , processed_transactions := t.processed_transactions }
            , { queries := [(from_block, to_block)]
              , outcomes := t.outcomes
              , signedTxs := t.signedTxs
              , broadcasts := t.broadcasts })
      else
        (st, emptyCycleLog)

/-- A finite prefix of the infinite `while True` loop: one `runCycle` per
tick of the external schedule.  The body catches every exception
(lines 263-266), so every scheduled tick executes. -/
def runLoop (cfg : BridgeConfig) (st : LoopState) :
    List CycleEnv → LoopState × List CycleLog
  | [] => (st, [])
  | env :: rest =>
      let s := runCycle cfg st env
      let r := runLoop cfg s.1 rest
      (r.1, s.2 :: r.2)

/-- The `required_vars` list of `load_config_from_env` (lines 277-281). -/
def required_vars : List String :=
  ["SOURCE_CHAIN_RPC", "DESTINATION_CHAIN_RPC",
   "SOURCE_BRIDGE_ADDRESS", "DESTINATION_BRIDGE_ADDRESS",
   "LISTENER_PRIVATE_KEY"]

/-- Python truthiness of `os.getenv(var)` as used at line 284: an unset
variable and an empty string are both falsy. -/
def envPresent (env : String → Option String) (v : String) : Bool :=
  match env v with
  | none => false
  | some s => !(s == "")

/-- Model of `load_config_from_env` (lines 270-295): raise `ValueError` on the
first missing required variable, then build the config, parsing
`START_BLOCK` and `POLL_INTERVAL_SECONDS` with `int()` (default 0 and 15
when unset; a set but non-numeric value also raises `ValueError`). -/
def load_config_from_env (env : String → Option String) :
    Except String BridgeConfig :=
  match required_vars.find? (fun v => !(envPresent env v)) with
  | some v => .error ("Missing required environment variable: " ++ v)
  | none =>
      let getv := fun v => (env v).getD ""
      let sb := match env "START_BLOCK" with
                | none => some 0
                | some s => s.toNat?
      let pi := match env "POLL_INTERVAL_SECONDS" with
                | none => some 15
                | some s => s.toNat?
      match sb, pi with
      | some b, some p =>
          .ok { source_chain_rpc := getv "SOURCE_CHAIN_RPC"
              , destination_chain_rpc := getv "DESTINATION_CHAIN_RPC"
              , source_bridge_address := getv "SOURCE_BRIDGE_ADDRESS"
              , destination_bridge_address := getv "DESTINATION_BRIDGE_ADDRESS"
              , listener_private_key := getv "LISTENER_PRIVATE_KEY"
              , start_block := b
              , poll_interval_seconds := p }
      | _, _ => .error "invalid literal for int()"

/-- How the `__main__` block ends, seen from outside the process. -/
inductive MainBehavior
  | exitedBeforeLoop (exitCode : Nat)
  | enteredLoop (cfg : BridgeConfig)
deriving DecidableEq, Repr

/-- The `__main__` block (lines 297-311): a `ValueError` from
configuration loading is caught at line 308 and only logged, so the
interpreter then exits normally with code 0; any other startup exception
(for example `ConnectionError` from `ChainConnector.__init__` while the
listener is constructed, lines 83-85) is caught at line 310 and likewise
only logged, again exit code 0.  `initOk` abstracts whether
`BridgeEventListener(config)` constructs without raising; on success
`listener.run()` is entered and never returns. -/
def pythonMain (env : String → Option String) (initOk : Bool) :
    MainBehavior :=
  match load_config_from_env env with
  | .error _ => .exitedBeforeLoop 0
  | .ok cfg => if initOk then .enteredLoop cfg else .exitedBeforeLoop 0

/-! Concrete fixtures used by counterexamples and witnesses. -/

/-- A concrete configuration with all five required fields set. -/
def cfg0 : BridgeConfig :=
  { source_chain_rpc := "http://src.example"
  , destination_chain_rpc := "http://dst.example"
  , source_bridge_address := "0xSourceBridge"
  , destination_bridge_address := "0xDestBridge"
  , listener_private_key := "0xListenerKey" }

/-- A concrete event with the given transaction id. -/
def ev (t : Nat) : BridgeEvent :=
  { transactionId := t, sender := 2, destinationChainId := 3
  , token := 4, amount := 5 }

/-! Helper lemmas about single dispatches. -/

/-- Case law for `process_event`: an id already in the dedup set returns
early with no effects and no state change. -/
theorem process_event_mem (cfg : BridgeConfig) (processed : List Nat)
    (ok : Bool) (e : BridgeEvent) (h : e.transactionId ∈ processed) :
    process_event cfg processed ok e =
      { processed_transactions := processed
      , outcome := .AlreadyRelayed
      , effects := { signedTxs := [], broadcasts := [] } } := by
  simp [process_event, h]

/-- Case law for `process_event`: a new id with a successful build and
sign is recorded and yields exactly one signed transaction. -/
theorem process_event_new_ok (cfg : BridgeConfig) (processed : List Nat)
    (e : BridgeEvent) (h : e.transactionId ∉ processed) :
    process_event cfg processed true e =
      { processed_transactions := e.transactionId :: processed
      , outcome := .Relayed
      , effects := { signedTxs := [{ action := buildReleaseAction e
                                   , signerKey := cfg.listener_private_key }]
                   , broadcasts := [] } } := by
  simp [process_event, h, simulate_release_tokens]

/-- Case law for `process_event`: a new id whose build or sign raises is
not recorded and yields no effects. -/
theorem process_event_new_fail (cfg : BridgeConfig) (processed : List Nat)
    (e : BridgeEvent) (h : e.transactionId ∉ processed) :
    process_event cfg processed false e =
      { processed_transactions := processed
      , outcome := .Failed
      , effects := { signedTxs := [], broadcasts := [] } } := by
  simp [process_event, h, simulate_release_tokens]

/-- No call of `process_event` ever broadcasts: the send at lines 195-199
of script.py is commented out. -/
theorem process_event_broadcasts_nil (cfg : BridgeConfig)
    (processed : List Nat) (ok : Bool) (e : BridgeEvent) :
    (process_event cfg processed ok e).effects.broadcasts = [] := by
  by_cases h : e.transactionId ∈ processed
  · simp [process_event, h]
  · cases ok
    · simp [process_event, h, simulate_release_tokens]
    · simp [process_event, h, simulate_release_tokens]

/-! Helper lemmas about the sequential dispatch loop. -/

/-- Dispatching a concatenation runs the first block, then the second
from the state the first left behind, concatenating all observations. -/
theorem runDispatches_append (cfg : BridgeConfig) (processed : List Nat)
    (calls₁ calls₂ : List (BridgeEvent × Bool)) :
    runDispatches cfg processed (calls₁ ++ calls₂) =
      { processed_transactions :=
          (runDispatches cfg
            (runDispatches cfg processed calls₁).processed_transactions
            calls₂).processed_transactions
      , outcomes :=
          (runDispatches cfg processed calls₁).outcomes ++
          (runDispatches cfg
            (runDispatches cfg processed calls₁).processed_transactions
            calls₂).outcomes
      , signedTxs :=
          (runDispatches cfg processed calls₁).signedTxs ++
          (runDispatches cfg
            (runDispatches cfg processed calls₁).processed_transactions
            calls₂).signedTxs
      , broadcasts :=
          (runDispatches cfg processed calls₁).broadcasts ++
          (runDispatches cfg
            (runDispatches cfg processed calls₁).processed_transactions
            calls₂).broadcasts } := by
  induction calls₁ generalizing processed with
  | nil => simp [runDispatches]
  | cons c rest ih =>
    obtain ⟨e, ok⟩ := c
    simp only [List.cons_append, runDispatches, List.append_eq]
    rw [ih]
    simp [List.append_assoc]

/-- Every scanned event receives exactly one dispatch outcome, in order. -/
theorem runDispatches_length (cfg : BridgeConfig) (processed : List Nat)
    (calls : List (BridgeEvent × Bool)) :
    (runDispatches cfg processed calls).outcomes.length = calls.length := by
  induction calls generalizing processed with
  | nil => rfl
  | cons c rest ih =>
    obtain ⟨e, ok⟩ := c
    simp [runDispatches, ih]

/-- Along any dispatch sequence, the number of signed destination
transactions carrying a given source transaction id is bounded by one,
and by zero when the id is already recorded. -/
theorem runDispatches_countP_le (cfg : BridgeConfig) (t : Nat)
    (calls : List (BridgeEvent × Bool)) :
    ∀ processed : List Nat,
      ((runDispatches cfg processed calls).signedTxs.countP
          (fun s => s.action.sourceTransactionId == t))
        ≤ (if t ∈ processed then 0 else 1) := by
  induction calls with
  | nil =>
    intro processed
    simp [runDispatches]
  | cons c rest ih =>
    intro processed
    obtain ⟨e, ok⟩ := c
    by_cases hmem : e.transactionId ∈ processed
    · have h := ih processed
      simp only [runDispatches, process_event_mem cfg processed ok e hmem]
      simpa using h
    · cases ok
      · have h := ih processed
        simp only [runDispatches, process_event_new_fail cfg processed e hmem]
        simpa using h
      · have h := ih (e.transactionId :: processed)
        simp only [runDispatches, process_event_new_ok cfg processed e hmem]
        rw [List.countP_append]
        by_cases het : e.transactionId = t
        · subst het
          have hin : e.transactionId ∈ e.transactionId :: processed :=
            List.mem_cons_self _ _
          rw [if_pos hin] at h
          rw [if_neg hmem]
          have hhead1 :
              (List.countP
                (fun s => s.action.sourceTransactionId == e.transactionId)
                ([{ action := buildReleaseAction e
                  , signerKey := cfg.listener_private_key }] : List SignedTx))
                = 1 := by
            simp [List.countP_cons, List.countP_nil, buildReleaseAction]
          rw [hhead1]
          omega
        · have hhead0 :
              (List.countP
                (fun s => s.action.sourceTransactionId == t)
                ([{ action := buildReleaseAction e
                  , signerKey := cfg.listener_private_key }] : List SignedTx))
                = 0 := by
            simp [List.countP_cons, List.countP_nil, buildReleaseAction, het]
          rw [hhead0]
          by_cases htp : t ∈ processed
          · rw [if_pos htp]
            rw [if_pos (List.mem_cons_of_mem _ htp)] at h
            omega
          · have hnotin : t ∉ e.transactionId :: processed := by
              intro hx
              rcases List.mem_cons.mp hx with hx | hx
              · exact het hx.symm
              · exact htp hx
            rw [if_neg htp]
            rw [if_neg hnotin] at h
            omega

/-! Helper lemmas about single loop iterations. -/

/-- A failed head read leaves the state unchanged and produces no
queries, dispatches or destination activity. -/
theorem runCycle_head_error (cfg : BridgeConfig) (st : LoopState)
    (scan : Nat → Nat → Except Unit (List (BridgeEvent × Bool))) :
    runCycle cfg st { head := .error (), scan := scan } =
      (st, emptyCycleLog) := rfl

/-- A head at or below the watermark skips the iteration entirely. -/
theorem runCycle_no_new_blocks (cfg : BridgeConfig) (st : LoopState)
    (scan : Nat → Nat → Except Unit (List (BridgeEvent × Bool)))
    (latest : Nat) (h : latest ≤ st.last_processed_block) :
    runCycle cfg st { head := .ok latest, scan := scan } =
      (st, emptyCycleLog) := by
  unfold runCycle
  dsimp only
  rw [if_neg (by omega)]

/-- A raising event query leaves the state unchanged; the attempted
query covered the whole span. -/
theorem runCycle_scan_error (cfg : BridgeConfig) (st : LoopState)
    (scan : Nat → Nat → Except Unit (List (BridgeEvent × Bool)))
    (latest : Nat) (hlt : st.last_processed_block < latest)
    (hs : scan (st.last_processed_block + 1) latest = .error ()) :
    runCycle cfg st { head := .ok latest, scan := scan } =
      (st, { queries := [(st.last_processed_block + 1, latest)]
           , outcomes := [], signedTxs := [], broadcasts := [] }) := by
  unfold runCycle
  dsimp only
  rw [if_pos hlt]
  simp only [hs]

/-- A successful scan dispatches every event and then advances the
watermark to the head unconditionally. -/
theorem runCycle_scan_ok (cfg : BridgeConfig) (st : LoopState)
    (scan : Nat → Nat → Except Unit (List (BridgeEvent × Bool)))
    (latest : Nat) (calls : List (BridgeEvent × Bool))
    (hlt : st.last_processed_block < latest)
    (hs : scan (st.last_processed_block + 1) latest = .ok calls) :
    runCycle cfg st { head := .ok latest, scan := scan } =
      ({ last_processed_block := latest
       , processed_transactions :=
           (runDispatches cfg st.processed_transactions
             calls).processed_transactions }
      , { queries := [(st.last_processed_block + 1, latest)]
        , outcomes := (runDispatches cfg st.processed_transactions
            calls).outcomes
        , signedTxs := (runDispatches cfg st.processed_transactions
            calls).signedTxs
        , broadcasts := (runDispatches cfg st.processed_transactions
            calls).broadcasts }) := by
  unfold runCycle
  dsimp only
  rw [if_pos hlt]
  simp only [hs]

/-- One iteration leaves the watermark unchanged or strictly raises it. -/
theorem runCycle_last_eq_or_lt (cfg : BridgeConfig) (st : LoopState)
    (env : CycleEnv) :
    (runCycle cfg st env).1.last_processed_block =
        st.last_processed_block ∨
      st.last_processed_block <
        (runCycle cfg st env).1.last_processed_block := by
  obtain ⟨hd, scan⟩ := env
  cases hd with
  | error u =>
    left
    rfl
  | ok latest =>
    by_cases hlt : st.last_processed_block < latest
    · cases hs : scan (st.last_processed_block + 1) latest with
      | error u =>
        left
        rw [runCycle_scan_error cfg st scan latest hlt hs]
      | ok calls =>
        right
        rw [runCycle_scan_ok cfg st scan latest calls hlt hs]
        exact hlt
    · left
      rw [runCycle_no_new_blocks cfg st scan latest (by omega)]

/-- One iteration never lowers the watermark. -/
theorem runCycle_last_le (cfg : BridgeConfig) (st : LoopState)
    (env : CycleEnv) :
    st.last_processed_block ≤
      (runCycle cfg st env).1.last_processed_block := by
  rcases runCycle_last_eq_or_lt cfg st env with h | h
  · omega
  · omega

/-- Across any finite schedule, the watermark never decreases. -/
theorem runLoop_last_le (cfg : BridgeConfig) (st : LoopState)
    (envs : List CycleEnv) :
    st.last_processed_block ≤
      (runLoop cfg st envs).1.last_processed_block := by
  induction envs generalizing st with
  | nil => exact Nat.le_refl _
  | cons env rest ih =>
    simp only [runLoop]
    exact Nat.le_trans (runCycle_last_le cfg st env)
      (ih (runCycle cfg st env).1)

/-- The loop body catches every exception, so every scheduled tick runs
and logs. -/
theorem runLoop_length (cfg : BridgeConfig) (st : LoopState)
    (envs : List CycleEnv) :
    (runLoop cfg st envs).2.length = envs.length := by
  induction envs generalizing st with
  | nil => rfl
  | cons env rest ih =>
    simp only [runLoop, List.length_cons]
    rw [ih (runCycle cfg st env).1]

/-- If some member of a list satisfies the predicate, `find?` returns a
result. -/
theorem find?_isSome_of_mem {α : Type} (p : α → Bool) (l : List α)
    (x : α) (hx : x ∈ l) (hp : p x = true) :
    (l.find? p).isSome = true := by
  induction l with
  | nil => cases hx
  | cons a l ih =>
    by_cases ha : p a = true
    · rw [List.find?_cons_of_pos _ ha]
      rfl
    · rcases List.mem_cons.mp hx with rfl | hmem
      · exact absurd hp ha
      · rw [List.find?_cons_of_neg _ (by simpa using ha)]
        exact ih hmem

/-! Environments used by counterexamples and witnesses. -/

/-- A cycle in which the head reads 5 and the scan returns one event
whose build/sign step fails. -/
def failCycleEnv : CycleEnv :=
  { head := .ok 5, scan := fun _ _ => .ok [(ev 7, false)] }

/-- A cycle whose head is a million blocks past the watermark. -/
def bigHeadEnv : CycleEnv :=
  { head := .ok 1000000, scan := fun _ _ => .ok [] }

/-- A process environment with no variable set. -/
def emptyEnv : String → Option String := fun _ => none

/-- A process environment with every required variable set (and only
those). -/
def validEnv : String → Option String := fun v =>
  if v ∈ required_vars then some "rpc" else none

/-! The claims. -/

/-- C1: At-most-once dispatch.  Starting from the empty in-memory dedup
set, any sequence of `process_event` calls signs at most one destination
release transaction per source `transactionId`; and a call whose
`transactionId` is already recorded returns `AlreadyRelayed`, performs no
destination-chain work, and changes no state — the dedup check precedes
any destination-chain activity. -/
theorem C1_at_most_once_dispatch :
    (∀ (cfg : BridgeConfig) (calls : List (BridgeEvent × Bool)) (t : Nat),
       ((runDispatches cfg [] calls).signedTxs.countP
           (fun s => s.action.sourceTransactionId == t)) ≤ 1) ∧
    (∀ (cfg : BridgeConfig) (processed : List Nat) (ok : Bool)
       (e : BridgeEvent),
       e.transactionId ∈ processed →
         process_event cfg processed ok e =
           { processed_transactions := processed
           , outcome := .AlreadyRelayed
           , effects := { signedTxs := [], broadcasts := [] } }) := by
  constructor
  · intro cfg calls t
    have h := runDispatches_countP_le cfg t calls []
    simpa using h
  · intro cfg processed ok e h
    exact process_event_mem cfg processed ok e h

/-- Witness for C1 at a concrete already-recorded id. -/
theorem C1_at_most_once_dispatch_witness :
    (ev 1).transactionId ∈ [1] ∧
    process_event cfg0 [1] true (ev 1) =
      { processed_transactions := [1]
      , outcome := .AlreadyRelayed
      , effects := { signedTxs := [], broadcasts := [] } } :=
  ⟨by decide, C1_at_most_once_dispatch.2 cfg0 [1] true (ev 1) (by decide)⟩

/-- C2 counterexample: a cycle whose only event fails to dispatch still
advances the watermark from 0 to the head 5, because `process_event`
catches the exception and line 261 of script.py runs unconditionally. -/
theorem C2_counterexample :
    Outcome.Failed ∈
        (runCycle cfg0 (LoopState.mk 0 []) failCycleEnv).2.outcomes ∧
    (runCycle cfg0 (LoopState.mk 0 []) failCycleEnv).1.last_processed_block
        = 5 := by
  decide

/-- C2 amended: when the head read and the event query succeed and the
head exceeds the watermark, the cycle advances the watermark to the head
regardless of dispatch outcomes (failed events are not re-scanned); the
watermark is left unchanged only when the head read or the query itself
raises. -/
theorem C2_watermark_advances_despite_dispatch_failure :
    ∀ (cfg : BridgeConfig) (st : LoopState) (env : CycleEnv)
      (latest : Nat) (calls : List (BridgeEvent × Bool)),
      env.head = .ok latest →
      st.last_processed_block < latest →
      env.scan (st.last_processed_block + 1) latest = .ok calls →
      (runCycle cfg st env).1.last_processed_block = latest ∧
      (runCycle cfg st env).2.outcomes =
        (runDispatches cfg st.processed_transactions calls).outcomes := by
  intro cfg st env latest calls hhead hlt hscan
  obtain ⟨hd, scan⟩ := env
  have hhd : hd = Except.ok latest := hhead
  subst hhd
  have hsc : scan (st.last_processed_block + 1) latest = Except.ok calls :=
    hscan
  rw [runCycle_scan_ok cfg st scan latest calls hlt hsc]
  exact ⟨rfl, rfl⟩

/-- Witness for the amended C2 on the failing concrete cycle. -/
theorem C2_watermark_advances_despite_dispatch_failure_witness :
    failCycleEnv.head = Except.ok 5 ∧
    (LoopState.mk 0 []).last_processed_block < 5 ∧
    failCycleEnv.scan ((LoopState.mk 0 []).last_processed_block + 1) 5 =
      Except.ok [(ev 7, false)] ∧
    ((runCycle cfg0 (LoopState.mk 0 []) failCycleEnv).1.last_processed_block
        = 5 ∧
     (runCycle cfg0 (LoopState.mk 0 []) failCycleEnv).2.outcomes =
       (runDispatches cfg0 (LoopState.mk 0 []).processed_transactions
         [(ev 7, false)]).outcomes) :=
  ⟨rfl, by decide, rfl,
    C2_watermark_advances_despite_dispatch_failure cfg0 (LoopState.mk 0 [])
      failCycleEnv 5 [(ev 7, false)] rfl (by decide) rfl⟩

/-- C3: a dispatch whose build or sign step raises reports `Failed`,
leaves the dedup set unchanged, and the same event still relays on a
later successful pass. -/
theorem C3_failed_dispatch_not_consumed :
    ∀ (cfg : BridgeConfig) (processed : List Nat) (e : BridgeEvent),
      e.transactionId ∉ processed →
        (process_event cfg processed false e).outcome = .Failed ∧
        (process_event cfg processed false e).processed_transactions =
          processed ∧
        (process_event cfg processed true e).outcome = .Relayed := by
  intro cfg processed e h
  rw [process_event_new_fail cfg processed e h,
    process_event_new_ok cfg processed e h]
  exact ⟨rfl, rfl, rfl⟩

/-- Witness for C3 at a concrete fresh event. -/
theorem C3_failed_dispatch_not_consumed_witness :
    (ev 1).transactionId ∉ ([] : List Nat) ∧
    ((process_event cfg0 [] false (ev 1)).outcome = .Failed ∧
     (process_event cfg0 [] false (ev 1)).processed_transactions = [] ∧
     (process_event cfg0 [] true (ev 1)).outcome = .Relayed) :=
  ⟨by decide, C3_failed_dispatch_not_consumed cfg0 [] (ev 1) (by decide)⟩

/-- C4: the watermark is monotone.  Each iteration leaves it unchanged
or strictly raises it, and over any finite schedule it never
decreases. -/
theorem C4_watermark_monotone :
    (∀ (cfg : BridgeConfig) (st : LoopState) (env : CycleEnv),
       (runCycle cfg st env).1.last_processed_block =
           st.last_processed_block ∨
         st.last_processed_block <
           (runCycle cfg st env).1.last_processed_block) ∧
    (∀ (cfg : BridgeConfig) (st : LoopState) (envs : List CycleEnv),
       st.last_processed_block ≤
         (runLoop cfg st envs).1.last_processed_block) :=
  ⟨runCycle_last_eq_or_lt, runLoop_last_le⟩

/-- C5 counterexample: with the watermark at 0 and the head at
1000000, the cycle issues a single event query covering the whole
million-block span — there is no cap and no splitting. -/
theorem C5_counterexample :
    (runCycle cfg0 (LoopState.mk 0 []) bigHeadEnv).2.queries =
      [(1, 1000000)] := by
  decide

/-- C5 amended: the configuration has no scan-range cap and the loop
never splits: whenever the head exceeds the watermark, the cycle issues
exactly one event query covering the entire span from watermark plus one
to the head, however large. -/
theorem C5_no_range_cap_single_query :
    ∀ (cfg : BridgeConfig) (st : LoopState) (env : CycleEnv) (latest : Nat),
      env.head = .ok latest →
      st.last_processed_block < latest →
      (runCycle cfg st env).2.queries =
        [(st.last_processed_block + 1, latest)] := by
  intro cfg st env latest hhead hlt
  obtain ⟨hd, scan⟩ := env
  have hhd : hd = Except.ok latest := hhead
  subst hhd
  cases hs : scan (st.last_processed_block + 1) latest with
  | error u =>
    cases u
    rw [runCycle_scan_error cfg st scan latest hlt hs]
  | ok calls =>
    rw [runCycle_scan_ok cfg st scan latest calls hlt hs]

/-- Witness for the amended C5 on the million-block cycle. -/
theorem C5_no_range_cap_single_query_witness :
    bigHeadEnv.head = Except.ok 1000000 ∧
    (LoopState.mk 0 []).last_processed_block < 1000000 ∧
    (runCycle cfg0 (LoopState.mk 0 []) bigHeadEnv).2.queries =
      [((LoopState.mk 0 []).last_processed_block + 1, 1000000)] :=
  ⟨rfl, by decide,
    C5_no_range_cap_single_query cfg0 (LoopState.mk 0 []) bigHeadEnv 1000000
      rfl (by decide)⟩

/-- C6 counterexample: no configuration, state or event makes a dispatch
broadcast the destination transaction — the send at lines 195-199 of
script.py is commented out, so the simulation/live choice is not
configuration-selected. -/
theorem C6_counterexample :
    ¬ ∃ (cfg : BridgeConfig) (processed : List Nat) (ok : Bool)
        (e : BridgeEvent),
        (process_event cfg processed ok e).effects.broadcasts ≠ [] := by
  rintro ⟨cfg, processed, ok, e, h⟩
  exact h (process_event_broadcasts_nil cfg processed ok e)

/-- C6 amended: simulation-only behavior is hardwired, not a
configuration option: `BridgeConfig` has no simulation/live switch,
every dispatch broadcasts nothing, and a successful dispatch of a fresh
event only builds and signs the release transaction with the configured
key. -/
theorem C6_simulation_hardwired :
    ∀ (cfg : BridgeConfig) (processed : List Nat) (ok : Bool)
      (e : BridgeEvent),
      (process_event cfg processed ok e).effects.broadcasts = [] ∧
      (e.transactionId ∉ processed →
        (process_event cfg processed true e).effects.signedTxs =
          [{ action := buildReleaseAction e
           , signerKey := cfg.listener_private_key }]) := by
  intro cfg processed ok e
  refine ⟨process_event_broadcasts_nil cfg processed ok e, fun h => ?_⟩
  rw [process_event_new_ok cfg processed e h]

/-- Witness for the amended C6 at a concrete fresh event. -/
theorem C6_simulation_hardwired_witness :
    (ev 1).transactionId ∉ ([] : List Nat) ∧
    (process_event cfg0 [] true (ev 1)).effects.signedTxs =
      [{ action := buildReleaseAction (ev 1)
       , signerKey := cfg0.listener_private_key }] :=
  ⟨by decide, (C6_simulation_hardwired cfg0 [] true (ev 1)).2 (by decide)⟩

/-- C7 counterexample: with every variable unset, the process exits
before the loop but with exit code 0 — the `ValueError` is caught at
line 308 of script.py and only logged, so the claimed non-zero exit code
does not happen. -/
theorem C7_counterexample :
    pythonMain emptyEnv true = .exitedBeforeLoop 0 := rfl

/-- C7 amended: for every startup environment missing (or setting to the
empty string) a required configuration variable, the process terminates
without entering the relay loop, but with exit code zero. -/
theorem C7_missing_required_var_exits_zero_no_loop :
    ∀ (env : String → Option String) (initOk : Bool) (v : String),
      v ∈ required_vars → envPresent env v = false →
      pythonMain env initOk = .exitedBeforeLoop 0 := by
  intro env initOk v hv hmiss
  have hfind :
      ((required_vars.find? (fun v => !(envPresent env v))).isSome) = true :=
    find?_isSome_of_mem _ required_vars v hv (by rw [hmiss]; rfl)
  obtain ⟨w, hw⟩ := Option.isSome_iff_exists.mp hfind
  have hload : load_config_from_env env =
      .error ("Missing required environment variable: " ++ w) := by
    unfold load_config_from_env
    rw [hw]
  unfold pythonMain
  rw [hload]

/-- Witness for the amended C7 on the empty environment. -/
theorem C7_missing_required_var_exits_zero_no_loop_witness :
    ("SOURCE_CHAIN_RPC" ∈ required_vars) ∧
    envPresent emptyEnv "SOURCE_CHAIN_RPC" = false ∧
    pythonMain emptyEnv true = .exitedBeforeLoop 0 :=
  ⟨by decide, rfl,
    C7_missing_required_var_exits_zero_no_loop emptyEnv true
      "SOURCE_CHAIN_RPC" (by decide) rfl⟩

/-- C8: within a cycle events are dispatched strictly sequentially in
scan order — dispatching a concatenation runs the first block and then
the second from the state the first left, every event gets exactly one
outcome, and on the concrete three-event range of the spec a failure in
the middle does not prevent the later dispatch. -/
theorem C8_sequential_ordered_independent :
    (∀ (cfg : BridgeConfig) (processed : List Nat)
       (calls₁ calls₂ : List (BridgeEvent × Bool)),
       runDispatches cfg processed (calls₁ ++ calls₂) =
         { processed_transactions :=
             (runDispatches cfg
               (runDispatches cfg processed calls₁).processed_transactions
               calls₂).processed_transactions
         , outcomes :=
             (runDispatches cfg processed calls₁).outcomes ++
             (runDispatches cfg
               (runDispatches cfg processed calls₁).processed_transactions
               calls₂).outcomes
         , signedTxs :=
             (runDispatches cfg processed calls₁).signedTxs ++
             (runDispatches cfg
               (runDispatches cfg processed calls₁).processed_transactions
               calls₂).signedTxs
         , broadcasts :=
             (runDispatches cfg processed calls₁).broadcasts ++
             (runDispatches cfg
               (runDispatches cfg processed calls₁).processed_transactions
               calls₂).broadcasts }) ∧
    (∀ (cfg : BridgeConfig) (processed : List Nat)
       (calls : List (BridgeEvent × Bool)),
       (runDispatches cfg processed calls).outcomes.length = calls.length) ∧
    (runDispatches cfg0 []
        [(ev 11, true), (ev 13, false), (ev 14, true)]).outcomes =
      [.Relayed, .Failed, .Relayed] :=
  ⟨runDispatches_append, runDispatches_length, by decide⟩

/-- C9 counterexample: with a fully valid configuration, a failure to
connect to a chain while the listener is constructed (`initOk = false`)
makes the process exit before the loop — an exit caused by a startup RPC
failure, not by a configuration error and not by an external
shutdown. -/
theorem C9_counterexample :
    load_config_from_env validEnv =
      Except.ok
        { source_chain_rpc := "rpc", destination_chain_rpc := "rpc"
        , source_bridge_address := "rpc"
        , destination_bridge_address := "rpc"
        , listener_private_key := "rpc"
        , start_block := 0, poll_interval_seconds := 15 } ∧
    pythonMain validEnv false = .exitedBeforeLoop 0 := ⟨rfl, rfl⟩

/-- C9 amended: once the loop is entered it survives every runtime
failure — every tick of any finite schedule executes and logs, a failed
head read leaves the state untouched and performs no scan or dispatch —
and the only alternative to entering the loop is a pre-loop exit with
code zero, which can also be caused by a startup initialization failure
such as an unreachable chain, not only by a configuration error. -/
theorem C9_loop_survives_runtime_failures :
    (∀ (cfg : BridgeConfig) (st : LoopState) (envs : List CycleEnv),
       (runLoop cfg st envs).2.length = envs.length) ∧
    (∀ (cfg : BridgeConfig) (st : LoopState)
       (scan : Nat → Nat → Except Unit (List (BridgeEvent × Bool))),
       runCycle cfg st { head := .error (), scan := scan } =
         (st, emptyCycleLog)) ∧
    (∀ (env : String → Option String) (initOk : Bool),
       pythonMain env initOk = .exitedBeforeLoop 0 ∨
       ∃ cfg, pythonMain env initOk = .enteredLoop cfg) := by
  refine ⟨runLoop_length, runCycle_head_error, ?_⟩
  intro env initOk
  unfold pythonMain
  cases load_config_from_env env with
  | error msg => exact Or.inl rfl
  | ok cfg =>
    cases initOk
    · exact Or.inl rfl
    · exact Or.inr ⟨cfg, rfl⟩

/-- C10: dispatch never reads `destinationChainId`: two events that
differ only in that field produce identical dispatch results — the same
outcome, the same dedup update and the same signed release action. -/
theorem C10_dispatch_ignores_destinationChainId :
    ∀ (cfg : BridgeConfig) (processed : List Nat) (ok : Bool)
      (e : BridgeEvent) (d : Nat),
      process_event cfg processed ok { e with destinationChainId := d } =
        process_event cfg processed ok e := by
  intro cfg processed ok e d
  cases e
  rfl

end BridgeRelay
